import Mathlib

/-!
Verification of the cobbler sync pipeline (src/cobbler/action_sync.py) and the
System item (src/cobbler/item_system.py) against its natural-language
specification.  Python string operations are shallowly embedded as structurally
recursive functions on the character data of Lean strings, so that every
definition is executable and kernel-reducible.
-/

namespace Cobbler

/-! ## Python string primitives

Each definition mirrors the corresponding CPython `str` method on code points.
-/

/-- Python truthiness of an optional string: `None` and `""` are falsy.
Mirrors checks of the form `x is None or x == ""` in action_sync.py. -/
def pyTruthy : Option String → Bool
  | Option.none => false
  | some s => !(s == "")

/-- The string carried by an optional value, defaulting to empty. -/
def optStr (o : Option String) : String := o.getD ""

/-- Auxiliary splitter: scans the character list, cutting at every occurrence
of the (non-empty) separator, with fuel bounding the recursion. -/
def splitAux (sep : List Char) : Nat → List Char → List Char → List (List Char)
  | 0, s, acc => [acc.reverse ++ s]
  | fuel + 1, s, acc =>
    if sep.isPrefixOf s then
      acc.reverse :: splitAux sep fuel (s.drop sep.length) []
    else
      match s with
      | [] => [acc.reverse]
      | c :: rest => splitAux sep fuel rest (c :: acc)

/-- Python `s.split(sep)` for a non-empty separator (`[s]` when `sep` is empty,
a case the source never exercises). -/
def pySplit (s sep : String) : List String :=
  if sep = "" then [s]
  else (splitAux sep.data (s.data.length + 1) s.data []).map (fun l => String.mk l)

/-- Python `s.replace(pat, rep)` for a non-empty pattern: equivalently
`rep.join(s.split(pat))`. -/
def pyReplace (s pat rep : String) : String :=
  if pat = "" then s else String.intercalate rep (pySplit s pat)

/-- Python `s.find(sub) != -1` (substring containment, non-empty `sub`). -/
def pyContains (s sub : String) : Bool := (pySplit s sub).length != 1

/-- Python `s.startswith(p)`. -/
def pyStartsWith (s p : String) : Bool := p.data.isPrefixOf s.data

/-- Python `s.endswith(p)`. -/
def pyEndsWith (s p : String) : Bool := p.data.isSuffixOf s.data

/-- Python `str.upper` on one ASCII character. -/
def pyUpperChar (c : Char) : Char :=
  if 'a' ≤ c ∧ c ≤ 'z' then Char.ofNat (c.toNat - 32) else c

/-- Python `s.upper()` (ASCII range, as used for MAC addresses). -/
def pyUpper (s : String) : String := String.mk (s.data.map pyUpperChar)

/-- Python `str.lower` on one ASCII character. -/
def pyLowerChar (c : Char) : Char :=
  if 'A' ≤ c ∧ c ≤ 'Z' then Char.ofNat (c.toNat + 32) else c

/-- Python `s.lower()` (ASCII range, as used for architecture tags). -/
def pyLower (s : String) : String := String.mk (s.data.map pyLowerChar)

/-- Python `s[n:]` (slicing by code points). -/
def pyDrop (s : String) (n : Nat) : String := String.mk (s.data.drop n)

/-- Python `s.split(sep, 2)`: at most two cuts, the remainder kept intact. -/
def pySplitMax2 (s sep : String) : List String :=
  match pySplit s sep with
  | a :: b :: c :: rest => [a, b, String.intercalate sep (c :: rest)]
  | parts => parts

/-- Concatenation of a list of strings (Python repeated `+`/`write`). -/
def strConcat : List String → String
  | [] => ""
  | s :: rest => s ++ strConcat rest

/-- Python 2 lexicographic string comparison `cmp(a, b) <= 0` on code points. -/
def charListLe : List Char → List Char → Bool
  | [], _ => true
  | _ :: _, [] => false
  | a :: as, b :: bs => if a = b then charListLe as bs else decide (a < b)

/-- Boolean lexicographic order on strings (Python 2 `cmp` based sorting). -/
def strLeB (s t : String) : Bool := charListLe s.data t.data

/-! ### Basic facts about the string primitives -/

theorem strEq_of_data {a b : String} (h : a.data = b.data) : a = b := by
  cases a; cases b; exact congrArg String.mk h

theorem strAppend_left_cancel {a b c : String} (h : a ++ b = a ++ c) : b = c := by
  have hd : a.data ++ b.data = a.data ++ c.data := by
    rw [← String.data_append, ← String.data_append, h]
  exact strEq_of_data (List.append_cancel_left hd)

theorem strAppend_assoc (a b c : String) : a ++ b ++ c = a ++ (b ++ c) := by
  apply strEq_of_data
  simp [String.data_append, List.append_assoc]

theorem strEmpty_append (s : String) : "" ++ s = s := by
  apply strEq_of_data
  simp [String.data_append]

theorem strAppend_empty (s : String) : s ++ "" = s := by
  apply strEq_of_data
  simp [String.data_append]

theorem pyStartsWith_append {a : String} (b : String) {p : String}
    (h : pyStartsWith a p = true) : pyStartsWith (a ++ b) p = true := by
  unfold pyStartsWith at h ⊢
  rw [String.data_append]
  exact List.isPrefixOf_iff_prefix.mpr ((List.isPrefixOf_iff_prefix.mp h).trans
    (List.prefix_append a.data b.data))

theorem pyEndsWith_append (a : String) {p : String} : pyEndsWith (a ++ p) p = true := by
  unfold pyEndsWith
  rw [String.data_append]
  exact List.isSuffixOf_iff_suffix.mpr (List.suffix_append a.data p.data)

theorem charListLe_total (a b : List Char) : charListLe a b = true ∨ charListLe b a = true := by
  induction a generalizing b with
  | nil => left; rfl
  | cons x xs ih =>
    cases b with
    | nil => right; rfl
    | cons y ys =>
      by_cases hxy : x = y
      · subst hxy
        rcases ih ys with h | h
        · left; simpa [charListLe] using h
        · right; simpa [charListLe] using h
      · rcases lt_trichotomy x y with h | h | h
        · left; simp [charListLe, hxy, h]
        · exact absurd h hxy
        · right; simp [charListLe, Ne.symm hxy, h]

theorem charListLe_trans {a b c : List Char} (h1 : charListLe a b = true)
    (h2 : charListLe b c = true) : charListLe a c = true := by
  induction a generalizing b c with
  | nil => rfl
  | cons x xs ih =>
    cases b with
    | nil => simp [charListLe] at h1
    | cons y ys =>
      cases c with
      | nil => simp [charListLe] at h2
      | cons z zs =>
        by_cases hxy : x = y <;> by_cases hyz : y = z
        · subst hxy; subst hyz
          simp only [charListLe, if_pos rfl] at h1 h2 ⊢
          exact ih h1 h2
        · subst hxy
          simp only [charListLe, if_pos rfl] at h1
          simp only [charListLe, if_neg hyz, decide_eq_true_eq] at h2
          simp [charListLe, hyz, h2]
        · subst hyz
          simp only [charListLe, if_neg hxy, decide_eq_true_eq] at h1
          simp [charListLe, hxy, h1]
        · simp only [charListLe, if_neg hxy, decide_eq_true_eq] at h1
          simp only [charListLe, if_neg hyz, decide_eq_true_eq] at h2
          have hxz : x < z := lt_trans h1 h2
          simp [charListLe, ne_of_lt hxz, hxz]

theorem charListLe_antisymm {a b : List Char} (h1 : charListLe a b = true)
    (h2 : charListLe b a = true) : a = b := by
  induction a generalizing b with
  | nil =>
    cases b with
    | nil => rfl
    | cons y ys => simp [charListLe] at h2
  | cons x xs ih =>
    cases b with
    | nil => simp [charListLe] at h1
    | cons y ys =>
      by_cases hxy : x = y
      · subst hxy
        simp only [charListLe, if_pos rfl] at h1 h2
        rw [ih h1 h2]
      · simp only [charListLe, if_neg hxy, decide_eq_true_eq] at h1
        simp only [charListLe, if_neg (Ne.symm hxy), decide_eq_true_eq] at h2
        exact absurd (lt_trans h1 h2) (lt_irrefl x)

/-! ## Template renderer (BootSync.apply_template, action_sync.py lines 581-652)

Values in the metadata mapping are either Python strings or some other
Python object (only strings take part in the `@@key@@` post-substitution,
and only a string `tree` value supports `startswith`).  The Cheetah
templating engine is an external library, embedded as an arbitrary function
from source text and metadata to output text.
-/

/-- A Python metadata value: a string, or any non-string object. -/
inductive MVal where
  | str (s : String)
  | other
deriving DecidableEq

/-- A Python dict used as template metadata, as an insertion-ordered
association list with unique keys. -/
abbrev Meta := List (String × MVal)

/-- Python `metadata[k]` combined with `metadata.has_key(k)`. -/
def metaLookup (m : Meta) (k : String) : Option MVal :=
  (m.find? (fun p => p.1 == k)).map (fun p => p.2)

/-- The external Cheetah templating engine:
`str(Template(source=data, searchList=[metadata]))`. -/
abbrev Engine := String → Meta → String

/-- One line of the snippet-inlining pass (action_sync.py lines 600-603): for
every cached snippet name, a non-comment line has each `SNIPPET::name`
occurrence replaced by the cached fragment text. -/
def snippetLine (snippets : List (String × String)) (line : String) : String :=
  snippets.foldl
    (fun l x => if !(pyStartsWith l "#") then pyReplace l ("SNIPPET::" ++ x.1) x.2 else l)
    line

/-- The snippet-inlining pass (action_sync.py lines 599-605).  Note the
faithful reproduction of `newdata = "\n".join((newdata, line))` starting from
the empty string, which prepends one newline to the data. -/
def snippetPass (snippets : List (String × String)) (data : String) : String :=
  (pySplit data "\n").foldl
    (fun newdata line => newdata ++ "\n" ++ snippetLine snippets line) ""

/-- Rewrite of one line in the NFS transport pass (action_sync.py
lines 613-622): a line containing both `--url` and `url ` becomes the
`nfs --server ... --dir ...` directive with the original URL kept as a
trailing comment line; a malformed NFS path raises CX. -/
def nfsRewriteLine (t line : String) : Except String String :=
  if pyContains line "--url" && pyContains line "url " then
    match pySplitMax2 (pyDrop t 6) ":" with
    | [server, dirpart] =>
      Except.ok ("nfs --server " ++ server ++ " --dir " ++ dirpart ++ "\n" ++ "#url --url=" ++ t)
    | _ => Except.error ("Invalid syntax for NFS path given during import: " ++ t)
  else Except.ok line

/-- The accumulation loop of the NFS pass: `newdata = newdata + line + "\n"`
(action_sync.py line 623). -/
def nfsFold (t : String) : List String → String → Except String String
  | [], acc => Except.ok acc
  | line :: rest, acc =>
    match nfsRewriteLine t line with
    | Except.error e => Except.error e
    | Except.ok l2 => nfsFold t rest (acc ++ l2 ++ "\n")

/-- The NFS transport-path rewrite pass (action_sync.py lines 610-624); runs
only when the metadata has a `tree` value starting with `nfs://`.  A
non-string `tree` value would fail the `startswith` attribute access. -/
def nfsPass (metadata : Meta) (data : String) : Except String String :=
  match metaLookup metadata "tree" with
  | some (MVal.str t) =>
    if pyStartsWith t "nfs://" then nfsFold t (pySplit data "\n") ""
    else Except.ok data
  | some MVal.other => Except.error "AttributeError: tree value has no startswith"
  | Option.none => Except.ok data

/-- The literal post-substitution pass (action_sync.py lines 642-644): every
string-valued metadata entry has `@@key@@` replaced verbatim in the engine
output. -/
def postSub (metadata : Meta) (data_out : String) : String :=
  metadata.foldl
    (fun d x =>
      match x.2 with
      | MVal.str v => pyReplace d ("@@" ++ x.1 ++ "@@") v
      | MVal.other => d)
    data_out

/-- BootSync.apply_template (action_sync.py lines 581-652): legacy-token
rewrite, snippet inlining, NFS transport rewrite, one Cheetah evaluation of
the whole text (prefixed with the `#errorCatcher Echo` instruction), then
literal `@@key@@` post-substitution.  The rendered text is returned; the
optional write to `out_path` is modelled at the call sites. -/
def apply_template (engine : Engine) (snippets : List (String × String))
    (data_input : String) (metadata : Meta) : Except String String :=
  let data0 := pyReplace data_input "TEMPLATE::" "$"
  let data1 := snippetPass snippets data0
  match nfsPass metadata data1 with
  | Except.error e => Except.error e
  | Except.ok data2 =>
    Except.ok (postSub metadata (engine ("#errorCatcher Echo\n" ++ data2) metadata))

/-! ## DHCP reservation generation (BootSync.write_dhcp_file, lines 110-215) -/

/-- One network interface of a System, as the dict fields read by
write_dhcp_file, regen_ethers and regen_hosts. -/
structure Iface where
  mac_address : Option String
  ip_address : Option String
  hostname : Option String
  dhcp_tag : String
deriving DecidableEq

/-- A System as consumed by the per-interface loops: the architecture of its
distro (resolved through its profile) and its named interfaces. -/
structure DSys where
  arch : String
  interfaces : List (String × Iface)
deriving DecidableEq

/-- The per-interface reservation text `systxt` (action_sync.py
lines 159-189), computed only for an interface whose MAC is non-empty.
In `isc` mode it is a full host block; otherwise (dnsmasq) it is a single
architecture-tagged line for ia64 distros with an IP, and empty text in
every other case. -/
def dhcp_systxt (mode elilo arch : String) (counter : Nat) (iface : Iface) : String :=
  if mode == "isc" then
    (if pyTruthy iface.hostname then "\nhost " ++ optStr iface.hostname ++ " \x7b\n"
     else "\nhost generic" ++ toString counter ++ " \x7b\n")
    ++ (if arch == "ia64" then "    filename \"/" ++ elilo ++ "\";\n" else "")
    ++ ("    hardware ethernet " ++ optStr iface.mac_address ++ ";\n")
    ++ (if pyTruthy iface.ip_address then
          "    fixed-address " ++ optStr iface.ip_address ++ ";\n" else "")
    ++ "\x7d\n"
  else
    if pyTruthy iface.ip_address then
      if pyLower arch == "ia64" then
        "dhcp-host=net:ia64," ++ optStr iface.ip_address ++ "\n"
      else ""
    else ""

/-- First-match lookup in an association-list model of a Python dict. -/
def assocGet (m : List (String × String)) (k : String) : Option String :=
  (m.find? (fun p => p.1 == k)).map (fun p => p.2)

/-- Update (or append) a key in an association-list model of a Python dict:
the first binding of the key is replaced (keys are unique), otherwise the
binding is appended. -/
def assocSet : List (String × String) → String → String → List (String × String)
  | [], k, v => [(k, v)]
  | p :: rest, k, v => if p.1 == k then (p.1, v) :: rest else p :: assocSet rest k v

/-- The dhcp_tag bucket key: an empty tag maps to the `default` bucket
(action_sync.py lines 191-193). -/
def dhcpTagOf (iface : Iface) : String :=
  if iface.dhcp_tag == "" then "default" else iface.dhcp_tag

/-- The loop state of write_dhcp_file: the `counter` of processed interfaces
and the `system_definitions` buckets. -/
structure DhcpState where
  counter : Nat
  defs : List (String × String)
deriving DecidableEq

/-- Processing of a single interface inside write_dhcp_file (action_sync.py
lines 148-197): an interface with falsy MAC is skipped (`continue`) before
the counter increment and before its bucket is even created; otherwise the
reservation text is appended to the interface's tag bucket. -/
def dhcp_step (mode elilo arch : String) (st : DhcpState) (iface : Iface) : DhcpState :=
  if pyTruthy iface.mac_address = false then st
  else
    let counter := st.counter + 1
    let systxt := dhcp_systxt mode elilo arch counter iface
    let tag := dhcpTagOf iface
    let cur := (assocGet st.defs tag).getD ""
    { counter := counter, defs := assocSet st.defs tag (cur ++ systxt) }

/-- The full double loop of write_dhcp_file over systems and interfaces
(action_sync.py lines 145-197), producing the counter and the
`system_definitions` buckets later injected in the DHCP template. -/
def write_dhcp_defs (mode elilo : String) (systems : List DSys) : DhcpState :=
  systems.foldl
    (fun st sys => sys.interfaces.foldl (fun st2 p => dhcp_step mode elilo sys.arch st2 p.2) st)
    { counter := 0, defs := [] }

/-! ## Host database files (regen_ethers lines 217-231, regen_hosts 233-246) -/

/-- The `/etc/ethers` text contributed by one interface (action_sync.py
lines 224-230): skipped without a MAC, written only with a truthy IP. -/
def ethers_line (iface : Iface) : String :=
  if pyTruthy iface.mac_address = false then ""
  else if pyTruthy iface.ip_address then
    pyUpper (optStr iface.mac_address) ++ "\t" ++ optStr iface.ip_address ++ "\n"
  else ""

/-- The `cobbler_hosts` text contributed by one interface (action_sync.py
lines 239-245): skipped without a MAC, written only with truthy hostname
and IP. -/
def hosts_line (iface : Iface) : String :=
  if pyTruthy iface.mac_address = false then ""
  else if pyTruthy iface.hostname && pyTruthy iface.ip_address then
    optStr iface.ip_address ++ "\t" ++ optStr iface.hostname ++ "\n"
  else ""

/-- BootSync.regen_ethers: the full contents written to `/etc/ethers`. -/
def regen_ethers (systems : List DSys) : String :=
  systems.foldl
    (fun acc sys => sys.interfaces.foldl (fun acc2 p => acc2 ++ ethers_line p.2) acc) ""

/-- BootSync.regen_hosts: the full contents written to
`/var/lib/cobbler/cobbler_hosts`. -/
def regen_hosts (systems : List DSys) : String :=
  systems.foldl
    (fun acc sys => sys.interfaces.foldl (fun acc2 p => acc2 ++ hosts_line p.2) acc) ""

/-! ## Tree reconciler (BootSync.clean_trees, action_sync.py lines 253-279) -/

/-- A directory entry as classified by `os.path.isfile` / `os.path.isdir`. -/
inductive FsEntry where
  | file (name : String)
  | dir (name : String)
deriving DecidableEq

/-- A destructive filesystem action issued by clean_trees. -/
inductive FsAction where
  | rmfile (path : String)
  | rmtree (path : String)
  | rmtree_contents (path : String)
deriving DecidableEq

/-- `os.path.join` for a root and a relative entry name. -/
def pathJoin (a b : String) : String := a ++ "/" ++ b

/-- The directory allow-list of clean_trees (action_sync.py line 272). -/
def webdir_allow : List String :=
  ["webui", "localmirror", "repo_mirror", "ks_mirror", "kickstarts", "kickstarts_sys",
   "distros", "images", "systems", "profiles", "links", "repo_profile", "repo_system"]

/-- The generated-artifact directories whose contents are purged
(action_sync.py line 275). -/
def webdir_purge : List String :=
  ["kickstarts", "kickstarts_sys", "images", "systems", "distros", "profiles",
   "repo_profile", "repo_system"]

/-- Classification of one entry of the web-served root (action_sync.py
lines 266-277): files are deleted unless named `*.py`; directories outside
the allow-list are deleted recursively; the purge subset has its contents
removed while the directory is kept. -/
def clean_web_entry (webdir : String) : FsEntry → List FsAction
  | FsEntry.file x =>
    if pyEndsWith x ".py" = false then [FsAction.rmfile (pathJoin webdir x)] else []
  | FsEntry.dir x =>
    (if x ∈ webdir_allow then [] else [FsAction.rmtree (pathJoin webdir x)])
    ++ (if x ∈ webdir_purge then [FsAction.rmtree_contents (pathJoin webdir x)] else [])

/-- BootSync.clean_trees as the list of destructive actions it issues, given
the listing of the web-served root: the per-entry sweep followed by the two
purges under the boot-tree root (action_sync.py lines 266-279). -/
def clean_trees (webdir tftpboot : String) (listing : List FsEntry) : List FsAction :=
  (listing.flatMap (clean_web_entry webdir))
  ++ [FsAction.rmtree_contents (pathJoin tftpboot "pxelinux.cfg"),
      FsAction.rmtree_contents (pathJoin tftpboot "images")]

/-! ## The System item (src/cobbler/item_system.py) -/

/-- A Python attribute value as stored on the System item: a string, a dict,
or None. -/
inductive PyVal where
  | str (s : String)
  | map (entries : List (String × String))
  | pynone
deriving DecidableEq

/-- Whether a stored value is mapping-valued. -/
def PyVal.isMapping : PyVal → Bool
  | PyVal.map _ => true
  | _ => false

/-- The System item's attribute record (item_system.py). -/
structure PySystem where
  name : PyVal
  profile : PyVal
  kernel_options : PyVal
  ks_meta : PyVal
deriving DecidableEq

/-- System.clear (item_system.py lines 25-29), also run by System.__init__:
name and profile become None, and kernel_options and ks_meta become the
EMPTY STRING, not mappings. -/
def System_clear : PySystem :=
  { name := PyVal.pynone, profile := PyVal.pynone,
    kernel_options := PyVal.str "", ks_meta := PyVal.str "" }

/-- System.set_name (item_system.py lines 38-51): the literal name `default`
is accepted unconditionally; otherwise `utils.find_system_identifier` (an
external helper resolving hostnames, IPv4 literals and MAC literals, passed
here as a parameter) must return a truthy value, else
CobblerException("bad_sys_name") is raised.  On success the original name is
stored. -/
def set_name (find_sys_id : String → Option String) (name : String) : Except String String :=
  if name == "default" then Except.ok "default"
  else if pyTruthy (find_sys_id name) = false then Except.error "bad_sys_name"
  else Except.ok name

/-! ## Broken-reference validation (action_sync.py lines 534-537, 733-740) -/

/-- A loaded Profile as needed for reference validation. -/
structure VProfile where
  name : String
  distro : String
deriving DecidableEq

/-- A loaded Distro as needed for reference validation. -/
structure VDistro where
  name : String
deriving DecidableEq

/-- A System carrying its name and the name of its parent profile. -/
structure VSystem where
  name : String
  profile : String
deriving DecidableEq

/-- Modelled from the spec: `get_conceptual_parent` resolution of a System's
profile reference through the loaded Profile collection by name (the item
base class and collection classes are not part of this snapshot). -/
def find_profile (profiles : List VProfile) (pname : String) : Option VProfile :=
  profiles.find? (fun p => p.name == pname)

/-- Modelled from the spec: lookup of a Profile's parent Distro by name. -/
def find_distro (distros : List VDistro) (dname : String) : Option VDistro :=
  distros.find? (fun d => d.name == dname)

/-- BootSync.validate_kickstart_for_specific_system (action_sync.py
lines 534-561): a dangling profile reference raises CX naming the system and
the missing profile before anything is rendered; otherwise the kickstart is
rendered and written (the render/write work, which depends on the external
blender and template files, is the `render` parameter returning the paths
written for the system). -/
def validate_kickstart_for_specific_system (profiles : List VProfile)
    (render : VSystem → List String) (s : VSystem) : Except String (List String) :=
  match find_profile profiles s.profile with
  | Option.none =>
    Except.error ("system " ++ s.name ++ " references missing profile " ++ s.profile)
  | some _ => Except.ok (render s)

/-- BootSync.validate_kickstarts_per_system (action_sync.py lines 520-532):
systems are processed in order; the files written so far are kept and the
first CX aborts the phase.  Returns the written files and the error, if any. -/
def validate_kickstarts_per_system (profiles : List VProfile)
    (render : VSystem → List String) : List VSystem → List String × Option String
  | [] => ([], Option.none)
  | s :: rest =>
    match validate_kickstart_for_specific_system profiles render s with
    | Except.error m => ([], some m)
    | Except.ok ws =>
      let r := validate_kickstarts_per_system profiles render rest
      (ws ++ r.1, r.2)

/-- The reference checks opening BootSync.write_all_system_files
(action_sync.py lines 733-740): a dangling profile (or distro) reference
raises CX naming the objects before any per-system file is produced. -/
def write_all_system_files_checked (profiles : List VProfile) (distros : List VDistro)
    (render : VSystem → List String) (s : VSystem) : Except String (List String) :=
  match find_profile profiles s.profile with
  | Option.none =>
    Except.error ("system " ++ s.name ++ " references a missing profile " ++ s.profile)
  | some p =>
    match find_distro distros p.distro with
    | Option.none =>
      Except.error ("profile " ++ s.profile ++ " references a missing distro " ++ p.distro)
    | some _ => Except.ok (render s)

/-! ## PXE boot menu (BootSync.make_pxe_menu, action_sync.py lines 781-811) -/

/-- A Profile as consumed by the menu generator. -/
structure MProfile where
  name : String
deriving DecidableEq

/-- A System as consumed by the menu generator and write_pxe_file. -/
structure MSystem where
  name : String
  netboot_enabled : Bool
deriving DecidableEq

/-- The sort order used by make_pxe_menu: Python 2 `cmp(a.name, b.name)`. -/
def profLe (a b : MProfile) : Prop := strLeB a.name b.name = true

instance : DecidableRel profLe := fun a b => inferInstanceAs (Decidable (strLeB a.name b.name = true))

instance : IsTotal MProfile profLe :=
  ⟨fun a b => charListLe_total a.name.data b.name.data⟩

instance : IsTrans MProfile profLe :=
  ⟨fun _ _ _ h1 h2 => charListLe_trans h1 h2⟩

instance : IsAntisymm MProfile profLe :=
  ⟨fun a b h1 h2 => by
    cases a; cases b
    exact congrArg MProfile.mk (strEq_of_data (charListLe_antisymm h1 h2))⟩

/-- BootSync.write_pxe_file restricted to its returned contents
(action_sync.py lines 814-907): a netboot-disabled system yields None; the
template choice, blending and kernel command line construction (which read
external template files) are the `render` parameter. -/
def write_pxe_file (render : MProfile → String) (system : Option MSystem)
    (profile : MProfile) : Option String :=
  match system with
  | some sys => if sys.netboot_enabled = false then Option.none else some (render profile)
  | Option.none => some (render profile)

/-- The pxe_menu_items accumulation of make_pxe_menu (action_sync.py
lines 800-805): one entry per profile in sorted order, each followed by a
newline. -/
def pxe_menu_items (render : MProfile → String) (profile_list : List MProfile) : String :=
  profile_list.foldl
    (fun acc p =>
      match write_pxe_file render Option.none p with
      | some contents => acc ++ contents ++ "\n"
      | Option.none => acc)
    ""

/-- The metadata handed to apply_template by make_pxe_menu
(action_sync.py line 808). -/
def menu_meta (items : String) : Meta := [("pxe_menu_items", MVal.str items)]

/-- An observable filesystem effect of make_pxe_menu. -/
inductive Effect where
  | read (path : String)
  | write (path : String) (content : String)
deriving DecidableEq

/-- BootSync.make_pxe_menu (action_sync.py lines 781-811) as the list of its
filesystem effects: nothing at all when a system named `default` exists;
otherwise the menu template is read and the rendered aggregate menu is
written to pxelinux.cfg/default under the boot tree. -/
def make_pxe_menu (tftpboot : String) (systems : List MSystem) (profiles : List MProfile)
    (render : MProfile → String) (engine : Engine) (snippets : List (String × String))
    (template_data : String) : List Effect :=
  match systems.find? (fun s => s.name == "default") with
  | some _ => []
  | Option.none =>
    let profile_list := List.insertionSort profLe profiles
    let items := pxe_menu_items render profile_list
    match apply_template engine snippets template_data (menu_meta items) with
    | Except.ok content =>
      [Effect.read "/etc/cobbler/pxedefault.template",
       Effect.write (pathJoin tftpboot "pxelinux.cfg/default") content]
    | Except.error _ => [Effect.read "/etc/cobbler/pxedefault.template"]

/-! ## Supporting lemmas -/

theorem strConcat_append (a b : List String) :
    strConcat (a ++ b) = strConcat a ++ strConcat b := by
  induction a with
  | nil => simp [strConcat, strEmpty_append]
  | cons s rest ih => simp [strConcat, ih, strAppend_assoc]

theorem nfsFold_ok_of_split {t server dirpart : String}
    (h : pySplitMax2 (pyDrop t 6) ":" = [server, dirpart]) :
    ∀ (lines : List String) (acc : String),
      nfsFold t lines acc = Except.ok (acc ++ strConcat (lines.map (fun line =>
        (if pyContains line "--url" && pyContains line "url " then
          "nfs --server " ++ server ++ " --dir " ++ dirpart ++ "\n" ++ "#url --url=" ++ t
         else line) ++ "\n"))) := by
  intro lines
  induction lines with
  | nil => intro acc; simp [nfsFold, strConcat, strAppend_empty]
  | cons l ls ih =>
    intro acc
    by_cases hm : (pyContains l "--url" && pyContains l "url ") = true
    · simp only [nfsFold, nfsRewriteLine, hm, if_true, h]
      rw [ih]
      simp only [List.map_cons, strConcat, hm, if_true, strAppend_assoc]
    · simp only [nfsFold, nfsRewriteLine, hm, if_false, Bool.false_eq_true]
      rw [ih]
      simp only [List.map_cons, strConcat, hm, if_false, Bool.false_eq_true, strAppend_assoc]

/-! ## Claim theorems -/

/-- Claim C1: in apply_template, snippet inlining strictly precedes the single
templating-engine evaluation: whenever the pre-engine passes (legacy rewrite,
snippet inlining, transport rewrite) yield a text, the result of
apply_template is exactly one engine evaluation of that snippet-inlined text
against the host metadata mapping, followed by the literal post-substitution
against that same mapping — snippets are never rendered independently. -/
theorem apply_template_inlines_snippets_before_engine (engine : Engine)
    (snippets : List (String × String)) (metadata : Meta) (data d2 : String)
    (h : nfsPass metadata (snippetPass snippets (pyReplace data "TEMPLATE::" "$")) =
      Except.ok d2) :
    apply_template engine snippets data metadata =
      Except.ok (postSub metadata (engine ("#errorCatcher Echo\n" ++ d2) metadata)) := by
  simp only [apply_template, h]

/-- Witness for C1: a document consisting of a snippet marker, whose snippet
body carries a literal-substitution token, has that token substituted from
the host document's metadata. -/
theorem apply_template_inlines_snippets_before_engine_witness :
    nfsPass [("k", MVal.str "VAL")]
        (snippetPass [("foo", "x @@k@@ y")] (pyReplace "SNIPPET::foo" "TEMPLATE::" "$")) =
      Except.ok "\nx @@k@@ y"
  ∧ apply_template (fun s _ => s) [("foo", "x @@k@@ y")] "SNIPPET::foo"
        [("k", MVal.str "VAL")] =
      Except.ok "#errorCatcher Echo\n\nx VAL y" :=
  ⟨rfl,
   Eq.trans
     (apply_template_inlines_snippets_before_engine (fun s _ => s) [("foo", "x @@k@@ y")]
       [("k", MVal.str "VAL")] "SNIPPET::foo" "\nx @@k@@ y" rfl)
     rfl⟩

/-- Claim C7: when the metadata's `tree` is an `nfs://server:dir` URL, the
transport rewrite pass replaces every line containing both `--url` and
`url ` by the `nfs --server ... --dir ...` directive with the original URL
appended as a trailing comment line, leaves other lines unchanged, and when
`tree` is absent or not an nfs URL the pass leaves the data unchanged. -/
theorem nfs_transport_rewrite (metadata : Meta) (data t server dirpart : String) :
    (metaLookup metadata "tree" = some (MVal.str t) → pyStartsWith t "nfs://" = true →
      pySplitMax2 (pyDrop t 6) ":" = [server, dirpart] →
      nfsPass metadata data = Except.ok (strConcat ((pySplit data "\n").map (fun line =>
        (if pyContains line "--url" && pyContains line "url " then
          "nfs --server " ++ server ++ " --dir " ++ dirpart ++ "\n" ++ "#url --url=" ++ t
         else line) ++ "\n"))))
  ∧ (metaLookup metadata "tree" = Option.none → nfsPass metadata data = Except.ok data)
  ∧ (metaLookup metadata "tree" = some (MVal.str t) → pyStartsWith t "nfs://" = false →
      nfsPass metadata data = Except.ok data) := by
  refine ⟨?_, ?_, ?_⟩
  · intro h1 h2 h3
    simp only [nfsPass, h1, h2, if_true]
    rw [nfsFold_ok_of_split h3, strEmpty_append]
  · intro h1
    simp only [nfsPass, h1]
  · intro h1 h2
    simp only [nfsPass, h1, h2, Bool.false_eq_true, if_false]

/-- Witness for C7: a matching line is rewritten with the URL kept as a
comment; with an absent or non-nfs tree the pass is the identity. -/
theorem nfs_transport_rewrite_witness :
    nfsPass [("tree", MVal.str "nfs://srv:/distros/f8")] "url --url=http://a/b\nfoo" =
      Except.ok
        "nfs --server srv --dir /distros/f8\n#url --url=nfs://srv:/distros/f8\nfoo\n"
  ∧ nfsPass [] "url --url=http://a/b" = Except.ok "url --url=http://a/b"
  ∧ nfsPass [("tree", MVal.str "http://srv/x")] "url --url=http://a/b" =
      Except.ok "url --url=http://a/b" :=
  ⟨Eq.trans
     ((nfs_transport_rewrite [("tree", MVal.str "nfs://srv:/distros/f8")]
         "url --url=http://a/b\nfoo" "nfs://srv:/distros/f8" "srv" "/distros/f8").1
       rfl (by decide) (by decide))
     rfl,
   (nfs_transport_rewrite [] "url --url=http://a/b" "" "" "").2.1 rfl,
   (nfs_transport_rewrite [("tree", MVal.str "http://srv/x")] "url --url=http://a/b"
       "http://srv/x" "" "").2.2 rfl (by decide)⟩

/-- Claim C8 (code bug evidence): System.clear — executed by System.__init__,
so every freshly constructed System — initializes ks_meta and kernel_options
to the EMPTY STRING: the fields are string-valued, not mapping-valued,
contradicting the spec's invariant (and the sibling sync code, which updates
metadata from ks_meta as a dict and serializes kernel_options as a hash). -/
theorem system_clear_fields_are_strings :
    System_clear.ks_meta = PyVal.str "" ∧
    System_clear.kernel_options = PyVal.str "" ∧
    PyVal.isMapping System_clear.ks_meta = false ∧
    PyVal.isMapping System_clear.kernel_options = false :=
  ⟨rfl, rfl, rfl, rfl⟩

/-- Counterexample to claim C9 as stated: set_name accepts the literal name
`default` unconditionally, even under an identifier resolver for which
`default` is not a resolvable host identifier, so set_name does not fail on
every input that is not a hostname, IPv4 literal or MAC literal. -/
theorem set_name_default_bypasses_resolver :
    pyTruthy ((fun _ => (Option.none : Option String)) "default") = false
  ∧ set_name (fun _ => Option.none) "default" = Except.ok "default" :=
  ⟨rfl, rfl⟩

/-- Claim C9 (amended): set_name succeeds for the literal name `default`
(accepted without any check) and for every name the identifier resolver
(hostname, IPv4 literal or MAC literal lookup) resolves to a truthy value,
storing the original name; it fails with CobblerException("bad_sys_name")
for every other input. -/
theorem set_name_characterization (find_sys_id : String → Option String) (name : String) :
    (name = "default" → set_name find_sys_id name = Except.ok "default")
  ∧ (name ≠ "default" → pyTruthy (find_sys_id name) = true →
      set_name find_sys_id name = Except.ok name)
  ∧ (name ≠ "default" → pyTruthy (find_sys_id name) = false →
      set_name find_sys_id name = Except.error "bad_sys_name") := by
  refine ⟨?_, ?_, ?_⟩
  · intro h
    simp [set_name, h]
  · intro h ht
    have hb : (name == "default") = false := by simp [h]
    simp [set_name, hb, ht]
  · intro h ht
    have hb : (name == "default") = false := by simp [h]
    simp [set_name, hb, ht]

/-- Witness for C9 (amended): the three cases at concrete inputs, under a
resolver that resolves exactly the IPv4 literal 10.0.0.5. -/
theorem set_name_characterization_witness :
    set_name (fun n => if n == "10.0.0.5" then some "10.0.0.5" else Option.none) "default" =
      Except.ok "default"
  ∧ set_name (fun n => if n == "10.0.0.5" then some "10.0.0.5" else Option.none) "10.0.0.5" =
      Except.ok "10.0.0.5"
  ∧ set_name (fun n => if n == "10.0.0.5" then some "10.0.0.5" else Option.none) "not a host" =
      Except.error "bad_sys_name" :=
  ⟨(set_name_characterization (fun n => if n == "10.0.0.5" then some "10.0.0.5" else Option.none)
      "default").1 rfl,
   (set_name_characterization (fun n => if n == "10.0.0.5" then some "10.0.0.5" else Option.none)
      "10.0.0.5").2.1 (by decide) (by decide),
   (set_name_characterization (fun n => if n == "10.0.0.5" then some "10.0.0.5" else Option.none)
      "not a host").2.2 (by decide) (by decide)⟩

/-- Claim C10: when the loaded systems contain one named `default`,
make_pxe_menu returns before reading the menu template and before writing
anything: no filesystem effect happens, whatever the profiles are. -/
theorem make_pxe_menu_noop_with_default_system (tftpboot : String)
    (systems : List MSystem) (profiles : List MProfile) (render : MProfile → String)
    (engine : Engine) (snippets : List (String × String)) (template_data : String)
    (h : ∃ s ∈ systems, s.name = "default") :
    make_pxe_menu tftpboot systems profiles render engine snippets template_data = [] := by
  obtain ⟨s, hs, hname⟩ := h
  have hfind : (systems.find? (fun s => s.name == "default")).isSome := by
    rw [List.find?_isSome]
    exact ⟨s, hs, by simp [hname]⟩
  obtain ⟨v, hv⟩ := Option.isSome_iff_exists.mp hfind
  simp only [make_pxe_menu, hv]

/-- Witness for C10: with a system literally named `default` present, no
effect is produced. -/
theorem make_pxe_menu_noop_with_default_system_witness :
    make_pxe_menu "/tftpboot" [MSystem.mk "default" true] [MProfile.mk "web"]
      (fun p => p.name) (fun s _ => s) [] "$pxe_menu_items" = [] :=
  make_pxe_menu_noop_with_default_system "/tftpboot" [MSystem.mk "default" true]
    [MProfile.mk "web"] (fun p => p.name) (fun s _ => s) [] "$pxe_menu_items"
    ⟨MSystem.mk "default" true, by simp, rfl⟩

theorem assocGet_cons_pos {p : String × String} (m : List (String × String)) {k : String}
    (hp : (p.1 == k) = true) : assocGet (p :: m) k = some p.2 := by
  simp [assocGet, List.find?_cons, hp]

theorem assocGet_cons_neg {p : String × String} (m : List (String × String)) {k : String}
    (hp : (p.1 == k) = false) : assocGet (p :: m) k = assocGet m k := by
  simp [assocGet, List.find?_cons, hp]

theorem assocGet_assocSet_self (m : List (String × String)) (k v : String) :
    assocGet (assocSet m k v) k = some v := by
  induction m with
  | nil => simp [assocGet, assocSet]
  | cons p rest ih =>
    by_cases hp : (p.1 == k) = true
    · simp only [assocSet, hp, if_true]
      exact assocGet_cons_pos rest hp
    · have hp' : (p.1 == k) = false := by simpa using hp
      simp only [assocSet, hp', Bool.false_eq_true, if_false]
      rw [assocGet_cons_neg _ hp']
      exact ih

theorem assocGet_assocSet_ne (m : List (String × String)) (k v k' : String)
    (h : k' ≠ k) : assocGet (assocSet m k v) k' = assocGet m k' := by
  have hk : (k == k') = false := beq_eq_false_iff_ne.mpr (Ne.symm h)
  induction m with
  | nil =>
    simp only [assocSet]
    rw [assocGet_cons_neg _ hk]
  | cons p rest ih =>
    by_cases hp : (p.1 == k) = true
    · have hpk : p.1 = k := by simpa using hp
      have hp' : (p.1 == k') = false := by rw [hpk]; exact hk
      simp only [assocSet, hp, if_true]
      have e1 : assocGet ((p.1, v) :: rest) k' = assocGet rest k' := assocGet_cons_neg rest hp'
      have e2 : assocGet (p :: rest) k' = assocGet rest k' := assocGet_cons_neg rest hp'
      exact e1.trans e2.symm
    · have hpf : (p.1 == k) = false := by simpa using hp
      simp only [assocSet, hpf, Bool.false_eq_true, if_false]
      by_cases hq : (p.1 == k') = true
      · rw [assocGet_cons_pos _ hq, assocGet_cons_pos rest hq]
      · have hqf : (p.1 == k') = false := by simpa using hq
        rw [assocGet_cons_neg _ hqf, assocGet_cons_neg rest hqf]
        exact ih

/-- Counterexample to claim C2 as stated: in dnsmasq manager mode an
interface with a non-empty MAC (and even a populated IP and hostname) on a
non-ia64 distro contributes an empty reservation text — the `default` bucket
holds zero bytes after the loop — so a reservation record is NOT emitted
regardless of manager mode. -/
theorem dnsmasq_nonia64_zero_record :
    pyTruthy (Iface.mk (some "AA:BB:CC:DD:EE:FF") (some "192.168.1.50") (some "box1")
        "").mac_address = true
  ∧ dhcp_systxt "dnsmasq" "elilo-3.6" "x86_64" 1
      (Iface.mk (some "AA:BB:CC:DD:EE:FF") (some "192.168.1.50") (some "box1") "") = ""
  ∧ write_dhcp_defs "dnsmasq" "elilo-3.6"
      [DSys.mk "x86_64"
        [("intf0", Iface.mk (some "AA:BB:CC:DD:EE:FF") (some "192.168.1.50") (some "box1") "")]]
      = DhcpState.mk 1 [("default", "")] :=
  ⟨rfl, rfl, rfl⟩

/-- Claim C2 (amended): an interface with empty or missing MAC is silently
skipped, leaving the counter and every bucket untouched; an interface with a
non-empty MAC in isc mode always yields exactly one host-block record
(opening with `host ` and closing the block), while in dnsmasq mode it
yields a single tagged line only when the distro arch lowercases to ia64 and
the IP is truthy, and zero bytes otherwise; the record of a kept interface
is appended to exactly its own dhcp-tag bucket. -/
theorem dhcp_interface_record (mode elilo arch : String) (st : DhcpState) (iface : Iface) :
    (pyTruthy iface.mac_address = false → dhcp_step mode elilo arch st iface = st)
  ∧ (pyStartsWith (dhcp_systxt "isc" elilo arch (st.counter + 1) iface) "\nhost " = true
     ∧ pyEndsWith (dhcp_systxt "isc" elilo arch (st.counter + 1) iface) "\x7d\n" = true)
  ∧ (dhcp_systxt "dnsmasq" elilo arch (st.counter + 1) iface =
      (if pyTruthy iface.ip_address && (pyLower arch == "ia64") then
        "dhcp-host=net:ia64," ++ optStr iface.ip_address ++ "\n" else ""))
  ∧ (pyTruthy iface.mac_address = true →
      (dhcp_step mode elilo arch st iface).counter = st.counter + 1
      ∧ assocGet (dhcp_step mode elilo arch st iface).defs (dhcpTagOf iface)
          = some ((assocGet st.defs (dhcpTagOf iface)).getD ""
              ++ dhcp_systxt mode elilo arch (st.counter + 1) iface)
      ∧ ∀ k, k ≠ dhcpTagOf iface →
          assocGet (dhcp_step mode elilo arch st iface).defs k = assocGet st.defs k) := by
  refine ⟨?_, ⟨?_, ?_⟩, ?_, ?_⟩
  · intro h
    simp [dhcp_step, h]
  · simp only [dhcp_systxt, beq_self_eq_true, if_true]
    apply pyStartsWith_append
    apply pyStartsWith_append
    apply pyStartsWith_append
    apply pyStartsWith_append
    by_cases hh : pyTruthy iface.hostname = true
    · simp only [hh, if_true]
      apply pyStartsWith_append
      apply pyStartsWith_append
      decide
    · simp only [hh, Bool.false_eq_true, if_false]
      apply pyStartsWith_append
      apply pyStartsWith_append
      decide
  · simp only [dhcp_systxt, beq_self_eq_true, if_true]
    exact pyEndsWith_append _
  · have hm : (("dnsmasq" : String) == "isc") = false := by decide
    simp only [dhcp_systxt, hm, Bool.false_eq_true, if_false]
    by_cases hip : pyTruthy iface.ip_address = true
    · by_cases ha : (pyLower arch == "ia64") = true
      · simp [hip, ha]
      · simp [hip, ha]
    · simp [hip]
  · intro h
    refine ⟨?_, ?_, ?_⟩
    · simp [dhcp_step, h]
    · simp only [dhcp_step, h, Bool.true_eq_false, if_false]
      exact assocGet_assocSet_self _ _ _
    · intro k hk
      simp only [dhcp_step, h, Bool.true_eq_false, if_false]
      exact assocGet_assocSet_ne _ _ _ _ hk

/-- Witness for C2 (amended): the skip case on a MAC-less interface and the
isc one-record case on a concrete interface. -/
theorem dhcp_interface_record_witness :
    dhcp_step "isc" "elilo-3.6" "x86_64" (DhcpState.mk 0 [])
      (Iface.mk Option.none (some "192.168.1.50") (some "box1") "") = DhcpState.mk 0 []
  ∧ (dhcp_step "isc" "elilo-3.6" "x86_64" (DhcpState.mk 0 [])
      (Iface.mk (some "AA:BB:CC:DD:EE:FF") (some "192.168.1.50") (some "box1") "")).counter = 1
  ∧ pyStartsWith
      (dhcp_systxt "isc" "elilo-3.6" "x86_64" ((DhcpState.mk 0 []).counter + 1)
        (Iface.mk (some "AA:BB:CC:DD:EE:FF") (some "192.168.1.50") (some "box1") ""))
      "\nhost " = true :=
  ⟨(dhcp_interface_record "isc" "elilo-3.6" "x86_64" (DhcpState.mk 0 [])
      (Iface.mk Option.none (some "192.168.1.50") (some "box1") "")).1 rfl,
   ((dhcp_interface_record "isc" "elilo-3.6" "x86_64" (DhcpState.mk 0 [])
      (Iface.mk (some "AA:BB:CC:DD:EE:FF") (some "192.168.1.50") (some "box1") "")).2.2.2
      rfl).1,
   (dhcp_interface_record "isc" "elilo-3.6" "x86_64" (DhcpState.mk 0 [])
      (Iface.mk (some "AA:BB:CC:DD:EE:FF") (some "192.168.1.50") (some "box1") "")).2.1.1⟩

theorem nested_fold_eq (f : Iface → String) (systems : List DSys) :
    ∀ (acc : String),
      systems.foldl (fun a sys => sys.interfaces.foldl (fun a2 p => a2 ++ f p.2) a) acc
        = acc ++ strConcat (systems.flatMap (fun s => s.interfaces.map (fun p => f p.2))) := by
  have inner : ∀ (l : List (String × Iface)) (acc : String),
      l.foldl (fun a2 p => a2 ++ f p.2) acc = acc ++ strConcat (l.map (fun p => f p.2)) := by
    intro l
    induction l with
    | nil => intro acc; simp [strConcat, strAppend_empty]
    | cons p rest ih =>
      intro acc
      simp [strConcat, ih, strAppend_assoc]
  induction systems with
  | nil => intro acc; simp [strConcat, strAppend_empty]
  | cons sys rest ih =>
    intro acc
    simp only [List.foldl_cons, List.flatMap_cons, strConcat_append]
    rw [ih, inner, strAppend_assoc]

/-- Counterexample to claim C6 as stated: an interface with both IP and
hostname populated but an empty MAC contributes no line to the IP→hostname
table — regen_hosts also requires a non-empty MAC. -/
theorem hosts_table_requires_mac :
    pyTruthy (Iface.mk (some "") (some "10.1.2.3") (some "node-a") "").ip_address = true
  ∧ pyTruthy (Iface.mk (some "") (some "10.1.2.3") (some "node-a") "").hostname = true
  ∧ regen_hosts [DSys.mk "x86_64" [("intf0", Iface.mk (some "") (some "10.1.2.3") (some "node-a") "")]]
      = "" :=
  ⟨rfl, rfl, rfl⟩

/-- Claim C6 (amended): the MAC→IP table has one line (uppercased MAC, tab,
IP) for every interface with non-empty MAC and non-empty IP; the
IP→hostname table has one line (IP, tab, hostname) for every interface with
non-empty MAC, non-empty hostname AND non-empty IP; each file is exactly the
concatenation of these per-interface lines over all systems. -/
theorem host_database_lines (systems : List DSys) (iface : Iface) :
    (ethers_line iface =
      (if pyTruthy iface.mac_address && pyTruthy iface.ip_address then
        pyUpper (optStr iface.mac_address) ++ "\t" ++ optStr iface.ip_address ++ "\n" else ""))
  ∧ (hosts_line iface =
      (if pyTruthy iface.mac_address && (pyTruthy iface.hostname && pyTruthy iface.ip_address) then
        optStr iface.ip_address ++ "\t" ++ optStr iface.hostname ++ "\n" else ""))
  ∧ regen_ethers systems
      = strConcat (systems.flatMap (fun s => s.interfaces.map (fun p => ethers_line p.2)))
  ∧ regen_hosts systems
      = strConcat (systems.flatMap (fun s => s.interfaces.map (fun p => hosts_line p.2))) := by
  refine ⟨?_, ?_, ?_, ?_⟩
  · by_cases h1 : pyTruthy iface.mac_address = true
    · by_cases h2 : pyTruthy iface.ip_address = true
      · simp [ethers_line, h1, h2]
      · simp [ethers_line, h1, h2]
    · have h1' : pyTruthy iface.mac_address = false := by simpa using h1
      simp [ethers_line, h1', h1]
  · by_cases h1 : pyTruthy iface.mac_address = true
    · by_cases h2 : (pyTruthy iface.hostname && pyTruthy iface.ip_address) = true
      · simp [hosts_line, h1, h2]
      · simp [hosts_line, h1, h2]
    · have h1' : pyTruthy iface.mac_address = false := by simpa using h1
      simp [hosts_line, h1', h1]
  · have := nested_fold_eq ethers_line systems ""
    rw [regen_ethers, this, strEmpty_append]
  · have := nested_fold_eq hosts_line systems ""
    rw [regen_hosts, this, strEmpty_append]

theorem mem_takeWhile_pred {α : Type} (p : α → Bool) :
    ∀ (l : List α) (x : α), x ∈ l.takeWhile p → p x = true := by
  intro l
  induction l with
  | nil => intro x hx; simp [List.takeWhile] at hx
  | cons a rest ih =>
    intro x hx
    by_cases ha : p a = true
    · rw [List.takeWhile_cons_of_pos ha] at hx
      rcases List.mem_cons.mp hx with h | h
      · rw [h]; exact ha
      · exact ih x h
    · rw [List.takeWhile_cons_of_neg ha] at hx
      cases hx

theorem validate_phase_aborts (profiles : List VProfile) (render : VSystem → List String) :
    ∀ (systems : List VSystem),
      (∃ x ∈ systems, find_profile profiles x.profile = Option.none) →
      (validate_kickstarts_per_system profiles render systems).2.isSome = true
      ∧ (validate_kickstarts_per_system profiles render systems).1 =
          (systems.takeWhile (fun x => (find_profile profiles x.profile).isSome)).flatMap render := by
  intro systems
  induction systems with
  | nil => rintro ⟨x, hx, _⟩; cases hx
  | cons a rest ih =>
    rintro ⟨x, hx, hxb⟩
    by_cases ha : find_profile profiles a.profile = Option.none
    · have hpa : ((fun x => (find_profile profiles x.profile).isSome) a) = false := by
        simp [ha]
      rw [List.takeWhile_cons_of_neg (by simp [hpa])]
      simp [validate_kickstarts_per_system, validate_kickstart_for_specific_system, ha]
    · obtain ⟨p, hp⟩ : ∃ p, find_profile profiles a.profile = some p := by
        cases hfp : find_profile profiles a.profile with
        | none => exact absurd hfp ha
        | some p => exact ⟨p, rfl⟩
      have hxrest : x ∈ rest := by
        rcases List.mem_cons.mp hx with h | h
        · rw [h] at hxb; exact absurd hxb ha
        · exact h
      have hrec := ih ⟨x, hxrest, hxb⟩
      constructor
      · simpa [validate_kickstarts_per_system, validate_kickstart_for_specific_system, hp]
          using hrec.1
      · simp only [validate_kickstarts_per_system, validate_kickstart_for_specific_system, hp,
          List.takeWhile_cons, Option.isSome_some, if_true, List.flatMap_cons]
        rw [hrec.2]

/-- Claim C4: a System whose profile name matches no loaded Profile makes the
per-system kickstart validation raise CX naming both the system and the
missing profile (and the later per-system file writer raises the analogous
error), the validation phase over the system list aborts with an error, and
no file is rendered for that system — only systems strictly before the
first broken reference have their files written; there is no silent
defaulting. -/
theorem broken_profile_reference_aborts (profiles : List VProfile) (distros : List VDistro)
    (render render2 : VSystem → List String) (systems : List VSystem) (s : VSystem)
    (hbroken : find_profile profiles s.profile = Option.none) :
    validate_kickstart_for_specific_system profiles render s =
        Except.error ("system " ++ s.name ++ " references missing profile " ++ s.profile)
  ∧ write_all_system_files_checked profiles distros render2 s =
        Except.error ("system " ++ s.name ++ " references a missing profile " ++ s.profile)
  ∧ (s ∈ systems →
      (validate_kickstarts_per_system profiles render systems).2.isSome = true
      ∧ (validate_kickstarts_per_system profiles render systems).1 =
          (systems.takeWhile (fun x => (find_profile profiles x.profile).isSome)).flatMap render
      ∧ s ∉ systems.takeWhile (fun x => (find_profile profiles x.profile).isSome)) := by
  refine ⟨?_, ?_, ?_⟩
  · simp [validate_kickstart_for_specific_system, hbroken]
  · simp [write_all_system_files_checked, hbroken]
  · intro hs
    have h := validate_phase_aborts profiles render systems ⟨s, hs, hbroken⟩
    refine ⟨h.1, h.2, ?_⟩
    intro hmem
    have := mem_takeWhile_pred (fun x => (find_profile profiles x.profile).isSome) systems s hmem
    simp [hbroken] at this

/-- Witness for C4: a concrete run with one healthy and one broken system;
the phase aborts with the error naming both names and only the healthy
system's file is written. -/
theorem broken_profile_reference_aborts_witness :
    validate_kickstart_for_specific_system [VProfile.mk "web" "f8"] (fun s => [s.name])
        (VSystem.mk "sys1" "ghost")
      = Except.error "system sys1 references missing profile ghost"
  ∧ (validate_kickstarts_per_system [VProfile.mk "web" "f8"] (fun s => [s.name])
        [VSystem.mk "ok1" "web", VSystem.mk "sys1" "ghost"]).1 = ["ok1"]
  ∧ (validate_kickstarts_per_system [VProfile.mk "web" "f8"] (fun s => [s.name])
        [VSystem.mk "ok1" "web", VSystem.mk "sys1" "ghost"]).2.isSome = true :=
  ⟨Eq.trans
     ((broken_profile_reference_aborts [VProfile.mk "web" "f8"] [] (fun s => [s.name])
        (fun s => [s.name]) [VSystem.mk "ok1" "web", VSystem.mk "sys1" "ghost"]
        (VSystem.mk "sys1" "ghost") rfl).1)
     rfl,
   Eq.trans
     (((broken_profile_reference_aborts [VProfile.mk "web" "f8"] [] (fun s => [s.name])
        (fun s => [s.name]) [VSystem.mk "ok1" "web", VSystem.mk "sys1" "ghost"]
        (VSystem.mk "sys1" "ghost") rfl).2.2 (by simp)).2.1)
     rfl,
   ((broken_profile_reference_aborts [VProfile.mk "web" "f8"] [] (fun s => [s.name])
        (fun s => [s.name]) [VSystem.mk "ok1" "web", VSystem.mk "sys1" "ghost"]
        (VSystem.mk "sys1" "ghost") rfl).2.2 (by simp)).1⟩

/-- Claim C5: with no System named `default`, make_pxe_menu reads the menu
template and writes the file `pxelinux.cfg/default` under the boot tree,
whose injected menu-entry block holds exactly one entry per Profile sorted by
name ascending: for Profiles named web, db, app — in whatever order the
store yields them — the entries appear in order app, db, web. -/
theorem pxe_menu_sorted_entries (tftpboot : String) (systems : List MSystem)
    (render : MProfile → String) (engine : Engine) (snippets : List (String × String))
    (template_data : String) (l : List MProfile)
    (hdef : systems.find? (fun s => s.name == "default") = Option.none)
    (hperm : l.Perm [MProfile.mk "web", MProfile.mk "db", MProfile.mk "app"]) :
    pxe_menu_items render (List.insertionSort profLe l) =
      render (MProfile.mk "app") ++ "\n" ++
        (render (MProfile.mk "db") ++ "\n" ++ (render (MProfile.mk "web") ++ "\n"))
  ∧ ∃ content,
      apply_template engine snippets template_data
        (menu_meta (pxe_menu_items render (List.insertionSort profLe l))) = Except.ok content
      ∧ make_pxe_menu tftpboot systems l render engine snippets template_data =
          [Effect.read "/etc/cobbler/pxedefault.template",
           Effect.write (pathJoin tftpboot "pxelinux.cfg/default") content] := by
  have hp2 : (List.insertionSort profLe l).Perm
      [MProfile.mk "app", MProfile.mk "db", MProfile.mk "web"] :=
    (List.perm_insertionSort profLe l).trans (hperm.trans (by decide))
  have hsort : List.insertionSort profLe l =
      [MProfile.mk "app", MProfile.mk "db", MProfile.mk "web"] :=
    List.eq_of_perm_of_sorted hp2 (List.sorted_insertionSort profLe l) (by decide)
  have hitems : pxe_menu_items render (List.insertionSort profLe l) =
      render (MProfile.mk "app") ++ "\n" ++
        (render (MProfile.mk "db") ++ "\n" ++ (render (MProfile.mk "web") ++ "\n")) := by
    rw [hsort]
    simp [pxe_menu_items, write_pxe_file, strEmpty_append, strAppend_assoc]
  refine ⟨hitems,
    postSub (menu_meta (pxe_menu_items render (List.insertionSort profLe l)))
      (engine
        ("#errorCatcher Echo\n" ++ snippetPass snippets (pyReplace template_data "TEMPLATE::" "$"))
        (menu_meta (pxe_menu_items render (List.insertionSort profLe l)))),
    rfl, ?_⟩
  simp only [make_pxe_menu, hdef]
  rfl

/-- Witness for C5: both hypotheses discharged at a concrete store order
db, web, app, menu entries come out in order app, db, web. -/
theorem pxe_menu_sorted_entries_witness :
    ([] : List MSystem).find? (fun s => s.name == "default") = Option.none
  ∧ ([MProfile.mk "db", MProfile.mk "web", MProfile.mk "app"] : List MProfile).Perm
      [MProfile.mk "web", MProfile.mk "db", MProfile.mk "app"]
  ∧ (pxe_menu_items (fun p => "LABEL " ++ p.name)
        (List.insertionSort profLe [MProfile.mk "db", MProfile.mk "web", MProfile.mk "app"]) =
        "LABEL " ++ "app" ++ "\n" ++
          ("LABEL " ++ "db" ++ "\n" ++ ("LABEL " ++ "web" ++ "\n"))
     ∧ ∃ content,
        apply_template (fun s _ => s) [] "$pxe_menu_items"
          (menu_meta (pxe_menu_items (fun p => "LABEL " ++ p.name)
            (List.insertionSort profLe
              [MProfile.mk "db", MProfile.mk "web", MProfile.mk "app"]))) = Except.ok content
        ∧ make_pxe_menu "/tftpboot" [] [MProfile.mk "db", MProfile.mk "web", MProfile.mk "app"]
            (fun p => "LABEL " ++ p.name) (fun s _ => s) [] "$pxe_menu_items" =
            [Effect.read "/etc/cobbler/pxedefault.template",
             Effect.write (pathJoin "/tftpboot" "pxelinux.cfg/default") content]) :=
  ⟨rfl, by decide,
   pxe_menu_sorted_entries "/tftpboot" [] (fun p => "LABEL " ++ p.name) (fun s _ => s) []
     "$pxe_menu_items" [MProfile.mk "db", MProfile.mk "web", MProfile.mk "app"] rfl (by decide)⟩

theorem pathJoin_inj_right {w x y : String} (h : pathJoin w x = pathJoin w y) : x = y := by
  unfold pathJoin at h
  exact strAppend_left_cancel h

theorem mem_clean_web_file (webdir x : String) (a : FsAction) :
    a ∈ clean_web_entry webdir (FsEntry.file x) ↔
      (pyEndsWith x ".py" = false ∧ a = FsAction.rmfile (pathJoin webdir x)) := by
  by_cases h : pyEndsWith x ".py" = false <;> simp [clean_web_entry, h]

theorem mem_clean_web_dir (webdir y : String) (a : FsAction) :
    a ∈ clean_web_entry webdir (FsEntry.dir y) ↔
      ((y ∉ webdir_allow ∧ a = FsAction.rmtree (pathJoin webdir y))
       ∨ (y ∈ webdir_purge ∧ a = FsAction.rmtree_contents (pathJoin webdir y))) := by
  by_cases h1 : y ∈ webdir_allow <;> by_cases h2 : y ∈ webdir_purge <;>
    simp [clean_web_entry, h1, h2]

theorem mem_clean_trees (webdir tftpboot : String) (listing : List FsEntry) (a : FsAction) :
    a ∈ clean_trees webdir tftpboot listing ↔
      ((∃ e ∈ listing, a ∈ clean_web_entry webdir e)
       ∨ a = FsAction.rmtree_contents (pathJoin tftpboot "pxelinux.cfg")
       ∨ a = FsAction.rmtree_contents (pathJoin tftpboot "images")) := by
  simp [clean_trees, List.mem_append, List.mem_flatMap]

/-- Claim C3: under the web-served root, clean_trees deletes exactly the
files whose names do not satisfy the allow rule for files (ending in .py),
recursively deletes exactly the directories outside the allow-list, purges
the contents of exactly the named generated-artifact directories (keeping
them), issues no action at all for any other allow-listed directory, and
the only purges rooted in the boot tree are pxelinux.cfg and images. -/
theorem clean_trees_characterization (webdir tftpboot : String) (listing : List FsEntry) :
    (∀ x, FsAction.rmfile (pathJoin webdir x) ∈ clean_trees webdir tftpboot listing ↔
        (FsEntry.file x ∈ listing ∧ pyEndsWith x ".py" = false))
  ∧ (∀ x, FsAction.rmtree (pathJoin webdir x) ∈ clean_trees webdir tftpboot listing ↔
        (FsEntry.dir x ∈ listing ∧ x ∉ webdir_allow))
  ∧ (∀ p, FsAction.rmtree_contents p ∈ clean_trees webdir tftpboot listing ↔
        ((∃ x, p = pathJoin webdir x ∧ FsEntry.dir x ∈ listing ∧ x ∈ webdir_purge)
         ∨ p = pathJoin tftpboot "pxelinux.cfg" ∨ p = pathJoin tftpboot "images"))
  ∧ (∀ x, x ∈ webdir_allow → x ∉ webdir_purge →
        clean_web_entry webdir (FsEntry.dir x) = []) := by
  refine ⟨?_, ?_, ?_, ?_⟩
  · intro x
    rw [mem_clean_trees]
    constructor
    · rintro (⟨e, he, hae⟩ | h | h)
      · cases e with
        | file y =>
          rcases (mem_clean_web_file webdir y _).mp hae with ⟨hy, heq⟩
          have hxy : x = y := pathJoin_inj_right (by simpa using heq)
          rw [hxy]
          exact ⟨he, hy⟩
        | dir y =>
          rcases (mem_clean_web_dir webdir y _).mp hae with ⟨_, heq⟩ | ⟨_, heq⟩ <;> cases heq
      · cases h
      · cases h
    · rintro ⟨hmem, hpy⟩
      exact Or.inl ⟨FsEntry.file x, hmem, (mem_clean_web_file webdir x _).mpr ⟨hpy, rfl⟩⟩
  · intro x
    rw [mem_clean_trees]
    constructor
    · rintro (⟨e, he, hae⟩ | h | h)
      · cases e with
        | file y =>
          rcases (mem_clean_web_file webdir y _).mp hae with ⟨_, heq⟩
          cases heq
        | dir y =>
          rcases (mem_clean_web_dir webdir y _).mp hae with ⟨hy, heq⟩ | ⟨_, heq⟩
          · have hxy : x = y := pathJoin_inj_right (by simpa using heq)
            rw [hxy]
            exact ⟨he, hy⟩
          · cases heq
      · cases h
      · cases h
    · rintro ⟨hmem, hx⟩
      exact Or.inl ⟨FsEntry.dir x, hmem, (mem_clean_web_dir webdir x _).mpr (Or.inl ⟨hx, rfl⟩)⟩
  · intro p
    rw [mem_clean_trees]
    constructor
    · rintro (⟨e, he, hae⟩ | h | h)
      · cases e with
        | file y =>
          rcases (mem_clean_web_file webdir y _).mp hae with ⟨_, heq⟩
          cases heq
        | dir y =>
          rcases (mem_clean_web_dir webdir y _).mp hae with ⟨_, heq⟩ | ⟨hy, heq⟩
          · cases heq
          · refine Or.inl ⟨y, ?_, he, hy⟩
            simpa using heq
      · exact Or.inr (Or.inl (by simpa using h))
      · exact Or.inr (Or.inr (by simpa using h))
    · rintro (⟨y, hp, hmem, hy⟩ | h | h)
      · refine Or.inl ⟨FsEntry.dir y, hmem, (mem_clean_web_dir webdir y _).mpr ?_⟩
        exact Or.inr ⟨hy, by rw [hp]⟩
      · exact Or.inr (Or.inl (by rw [h]))
      · exact Or.inr (Or.inr (by rw [h]))
  · intro x h1 h2
    simp [clean_web_entry, h1, h2]

/-- Witness for C3: on a concrete listing, a stray file is deleted, a kept
.py file is not, a stray directory is removed recursively, the kickstarts
artifact directory is only purged, and the allow-listed webui directory is
untouched. -/
theorem clean_trees_characterization_witness :
    FsAction.rmfile (pathJoin "/var/www/cobbler" "stale.txt") ∈
        clean_trees "/var/www/cobbler" "/tftpboot"
          [FsEntry.file "stale.txt", FsEntry.file "watcher.py", FsEntry.dir "stray",
           FsEntry.dir "kickstarts", FsEntry.dir "webui"]
  ∧ ¬ (FsAction.rmfile (pathJoin "/var/www/cobbler" "watcher.py") ∈
        clean_trees "/var/www/cobbler" "/tftpboot"
          [FsEntry.file "stale.txt", FsEntry.file "watcher.py", FsEntry.dir "stray",
           FsEntry.dir "kickstarts", FsEntry.dir "webui"])
  ∧ FsAction.rmtree (pathJoin "/var/www/cobbler" "stray") ∈
        clean_trees "/var/www/cobbler" "/tftpboot"
          [FsEntry.file "stale.txt", FsEntry.file "watcher.py", FsEntry.dir "stray",
           FsEntry.dir "kickstarts", FsEntry.dir "webui"]
  ∧ FsAction.rmtree_contents (pathJoin "/tftpboot" "pxelinux.cfg") ∈
        clean_trees "/var/www/cobbler" "/tftpboot"
          [FsEntry.file "stale.txt", FsEntry.file "watcher.py", FsEntry.dir "stray",
           FsEntry.dir "kickstarts", FsEntry.dir "webui"]
  ∧ clean_web_entry "/var/www/cobbler" (FsEntry.dir "webui") = [] :=
  ⟨((clean_trees_characterization "/var/www/cobbler" "/tftpboot"
      [FsEntry.file "stale.txt", FsEntry.file "watcher.py", FsEntry.dir "stray",
       FsEntry.dir "kickstarts", FsEntry.dir "webui"]).1 "stale.txt").mpr
      ⟨by decide, by decide⟩,
   fun hc =>
     by
      have := ((clean_trees_characterization "/var/www/cobbler" "/tftpboot"
        [FsEntry.file "stale.txt", FsEntry.file "watcher.py", FsEntry.dir "stray",
         FsEntry.dir "kickstarts", FsEntry.dir "webui"]).1 "watcher.py").mp hc
      exact absurd this.2 (by decide),
   ((clean_trees_characterization "/var/www/cobbler" "/tftpboot"
      [FsEntry.file "stale.txt", FsEntry.file "watcher.py", FsEntry.dir "stray",
       FsEntry.dir "kickstarts", FsEntry.dir "webui"]).2.1 "stray").mpr
      ⟨by decide, by decide⟩,
   ((clean_trees_characterization "/var/www/cobbler" "/tftpboot"
      [FsEntry.file "stale.txt", FsEntry.file "watcher.py", FsEntry.dir "stray",
       FsEntry.dir "kickstarts", FsEntry.dir "webui"]).2.2.1
      (pathJoin "/tftpboot" "pxelinux.cfg")).mpr (Or.inr (Or.inl rfl)),
   (clean_trees_characterization "/var/www/cobbler" "/tftpboot"
      [FsEntry.file "stale.txt", FsEntry.file "watcher.py", FsEntry.dir "stray",
       FsEntry.dir "kickstarts", FsEntry.dir "webui"]).2.2.2 "webui" (by decide) (by decide)⟩

end Cobbler
